import Mathlib

/-!
Verification of the pub_scraper pipeline (pub_scraper.py, entrezUtils.py).

The embedding models the pure data flow of the scripts. External services
are oracles passed in as functions:
  * the Entrez search API is `search : Nat → String → List String`, taking
    the index of the call (the calls are issued sequentially, one per term)
    and the formatted query, and returning an identifier list;
  * the per-identifier publication lookup (PubMedLookup + Publication,
    which either yields a publication or throws) is
    `lookupF : String → String → Option Publication`, taking the identifier
    and the credentials string passed as `entrez_email`.
Python `OrderedDict` is modelled as an association list with
insertion-order semantics: inserting an existing key updates its value in
place (keeping its position), a new key is appended at the end.
-/

/-- A fetched bibliographic record, as used by the report composer
(pubmed_lookup's Publication restricted to the fields the scripts read). -/
structure Publication where
  title : String
  journal : String
  authors : List String
  url : String
deriving DecidableEq

/-- Split a character list at every whitespace character (runs of
whitespace produce empty pieces, removed by `pyWords` below). -/
def wsSplit : List Char → List Char → List String
  | acc, [] => [String.mk acc.reverse]
  | acc, c :: cs =>
    if c.isWhitespace then String.mk acc.reverse :: wsSplit [] cs
    else wsSplit (c :: acc) cs

/-- Python `str.split()` with no argument: split on runs of whitespace,
with no empty words. -/
def pyWords (s : String) : List String :=
  (wsSplit [] s.data).filter (fun w => w ≠ "")

/-- Python `str(list_of_strings)`, as used by `"<p>{}</p>".format(pub.authors)`:
the items quoted and comma-separated inside square brackets (modelled for
strings that need no escaping). -/
def pyStrListRepr (l : List String) : String :=
  "[" ++ String.intercalate ", " (l.map (fun a => "'" ++ a ++ "'")) ++ "]"

/-- `d[k] = v` on an insertion-ordered dictionary: update in place if the
key is present, else append at the end. -/
def odInsert {α : Type} (d : List (String × α)) (k : String) (v : α) :
    List (String × α) :=
  if k ∈ d.map Prod.fst then
    d.map (fun p => if p.1 = k then (k, v) else p)
  else
    d ++ [(k, v)]

/-- `d[k]` on an insertion-ordered dictionary (first matching key). -/
def odLookup {α : Type} (d : List (String × α)) (k : String) : Option α :=
  match d with
  | [] => none
  | p :: rest => if p.1 = k then some p.2 else odLookup rest k

/-- entrezUtils.py line 60:
`formatted_term = '+'.join(term.split()) + "[Title/Abstract]"`. -/
def keyword_formatted_term (term : String) : String :=
  String.intercalate "+" (pyWords term) ++ "[Title/Abstract]"

/-- entrezUtils.py line 83: `formatted_term = term + '[Author]'`. -/
def author_formatted_term (term : String) : String :=
  term ++ "[Author]"

/-- entrezUtils.py line 105:
`formatted_term = journal + '[Journal] AND ({})'.format(' OR '.join(topic_list))`. -/
def jt_formatted_term (journal : String) (topic_list : List String) : String :=
  journal ++ "[Journal] AND (" ++ String.intercalate " OR " topic_list ++ ")"

/-- The common loop of `search_by_keywords` / `search_by_authors`
(entrezUtils.py lines 58-64 and 81-87): for each term, one `entrezSearch`
call on the formatted term, stored under the raw term key. The Nat
component counts the search calls issued so far and indexes the oracle. -/
def search_loop (search : Nat → String → List String) (fmt : String → String)
    (terms : List String) (st : List (String × List String) × Nat) :
    List (String × List String) × Nat :=
  terms.foldl
    (fun acc term => (odInsert acc.1 term (search acc.2 (fmt term)), acc.2 + 1))
    st

/-- entrezUtils.py `search_by_keywords` (lines 41-64), with the search call
counter starting at `n`. -/
def search_by_keywords (search : Nat → String → List String)
    (keywords : List String) (n : Nat) : List (String × List String) × Nat :=
  search_loop search keyword_formatted_term keywords ([], n)

/-- entrezUtils.py `search_by_authors` (lines 67-87). -/
def search_by_authors (search : Nat → String → List String)
    (authors : List String) (n : Nat) : List (String × List String) × Nat :=
  search_loop search author_formatted_term authors ([], n)

/-- entrezUtils.py `search_by_journal_and_topic` (lines 90-109): the
formatted term is both the dictionary key and the query sent to the
search call. -/
def search_by_journal_and_topic (search : Nat → String → List String)
    (journal_topic_dict : List (String × List String)) (n : Nat) :
    List (String × List String) × Nat :=
  journal_topic_dict.foldl
    (fun acc e =>
      (odInsert acc.1 (jt_formatted_term e.1 e.2)
        (search acc.2 (jt_formatted_term e.1 e.2)), acc.2 + 1))
    ([], n)

/-- The loop body of entrezUtils.py `fetch_pubs_from_ID_list`
(lines 164-173), with `result_list` as the accumulator. Per identifier the
source performs two operations: `lookup = PubMedLookup(ID, entrez_email)`
(line 166, OUTSIDE the `try`, so an exception it raises propagates out of
the function - modelled by the `Except`-valued `pubMedLookupF` oracle and
the early `Except.error` return) and `Publication(lookup)` (line 170,
inside the bare `try/except: pass`, so its failure only skips the append -
modelled by the `Option`-valued `publicationF` oracle). -/
def fetch_pubs_loop {κ : Type} (pubMedLookupF : String → String → Except String κ)
    (publicationF : κ → Option Publication) (entrez_email : String) :
    List String → List Publication → Except String (List Publication)
  | [], result_list => Except.ok result_list
  | ID :: rest, result_list =>
    match pubMedLookupF ID entrez_email with
    | Except.error e => Except.error e
    | Except.ok lookup =>
      match publicationF lookup with
      | some pub =>
        fetch_pubs_loop pubMedLookupF publicationF entrez_email rest
          (result_list ++ [pub])
      | none =>
        fetch_pubs_loop pubMedLookupF publicationF entrez_email rest result_list

/-- entrezUtils.py `fetch_pubs_from_ID_list` (lines 154-173): one
`PubMedLookup` construction per identifier (uncaught: a failure there is
the function's failure) followed by one guarded `Publication`
construction (caught: a failure there skips the identifier). -/
def fetch_pubs_from_ID_list {κ : Type}
    (pubMedLookupF : String → String → Except String κ)
    (publicationF : κ → Option Publication)
    (ID_list : List String) (entrez_email : String) :
    Except String (List Publication) :=
  fetch_pubs_loop pubMedLookupF publicationF entrez_email ID_list []

/-- The no-raise runs of `fetch_pubs_from_ID_list`, used to model the
aggregation stage of `main`: the two per-identifier phases are composed
into the single `Option`-valued oracle `lookupF`, which is exact precisely
for runs in which no `PubMedLookup` construction raises (the lemma
`fetch_pubs_from_ID_list_ok_runs` relates the two; with a raise, `main`
itself would die before producing any report). -/
def fetch_pubs_from_ID_list_noraise
    (lookupF : String → String → Option Publication)
    (ID_list : List String) (entrez_email : String) : List Publication :=
  ID_list.foldl
    (fun result_list ID =>
      match lookupF ID entrez_email with
      | some pub => result_list ++ [pub]
      | none => result_list)
    []

/-- pub_scraper.py `build_result_dict` (lines 181-196), on the no-raise
runs of the fetcher (an uncaught `PubMedLookup` exception would propagate
through `build_result_dict` and `main` alike, so only no-raise runs reach
the aggregation and rendering stages modelled below). -/
def build_result_dict (lookupF : String → String → Option Publication)
    (search_dict : List (String × List String)) (entrez_email : String) :
    List (String × List Publication) :=
  search_dict.foldl
    (fun d e =>
      odInsert d e.1 (fetch_pubs_from_ID_list_noraise lookupF e.2 entrez_email))
    []

/-- The per-run configuration values read from the settings file that the
modelled part of `main` consumes (pub_scraper.py lines 58-68). -/
structure Config where
  entrez_email : String
  search_keywords : List String
  search_authors : List String
  journal_topic_dict : List (String × List String)
  pub_days_ago : Nat
deriving DecidableEq

/-- pub_scraper.py line 48: the local variable `database = 'pubmed'`. -/
def database : String := "pubmed"

/-- pub_scraper.py lines 74-75: `keyword_results`. -/
def main_keyword_results (search : Nat → String → List String) (cfg : Config) :
    List (String × List String) × Nat :=
  search_by_keywords search cfg.search_keywords 0

/-- pub_scraper.py lines 78-79: `author_results` (the search calls continue
after the keyword ones). -/
def main_author_results (search : Nat → String → List String) (cfg : Config) :
    List (String × List String) × Nat :=
  search_by_authors search cfg.search_authors (main_keyword_results search cfg).2

/-- pub_scraper.py lines 82-84: `journal_topic_results`. -/
def main_journal_topic_results (search : Nat → String → List String)
    (cfg : Config) : List (String × List String) × Nat :=
  search_by_journal_and_topic search cfg.journal_topic_dict
    (main_author_results search cfg).2

/-- pub_scraper.py line 87:
`keyword_publications = build_result_dict(keyword_results, database)` —
note that the argument passed for `entrez_email` is the variable
`database`, exactly as in the source. -/
def main_keyword_publications (search : Nat → String → List String)
    (lookupF : String → String → Option Publication) (cfg : Config) :
    List (String × List Publication) :=
  build_result_dict lookupF (main_keyword_results search cfg).1 database

/-- pub_scraper.py line 88:
`author_publications = build_result_dict(author_results, database)`. -/
def main_author_publications (search : Nat → String → List String)
    (lookupF : String → String → Option Publication) (cfg : Config) :
    List (String × List Publication) :=
  build_result_dict lookupF (main_author_results search cfg).1 database

/-- pub_scraper.py lines 89-90:
`journal_topic_publications = build_result_dict(journal_topic_results, database)`. -/
def main_journal_topic_publications (search : Nat → String → List String)
    (lookupF : String → String → Option Publication) (cfg : Config) :
    List (String × List Publication) :=
  build_result_dict lookupF (main_journal_topic_results search cfg).1 database

/-- pub_scraper.py lines 93-97: `all_results_dict`, the three fixed
categories in their fixed order. -/
def main_results (search : Nat → String → List String)
    (lookupF : String → String → Option Publication) (cfg : Config) :
    List (String × List (String × List Publication)) :=
  [("Keyword Searches", main_keyword_publications search lookupF cfg),
   ("Author Searches", main_author_publications search lookupF cfg),
   ("Journal and Topic Searches", main_journal_topic_publications search lookupF cfg)]

/-- pub_scraper.py lines 100-103: the `total_hits` accumulation loop. -/
def total_hits (all_results_dict : List (String × List (String × List Publication))) :
    Nat :=
  all_results_dict.foldl
    (fun acc s => s.2.foldl (fun a t => a + t.2.length) acc)
    0

/-- pub_scraper.py lines 52-53: `message_subject`, with the formatted date
string abstracted as an input. -/
def message_subject (date_str : String) : String :=
  "pub scraper report - " ++ date_str

/-- pub_scraper.py line 107: the subject line with the hit total. -/
def subject_line (date_str : String) (total : Nat) : String :=
  message_subject date_str ++ " (" ++ toString total ++ " hits)"

/-- pub_scraper.py lines 211-216: the html header block (a triple-quoted
string whose first newline is escaped away; the source lines carry a
4-space indent). -/
def html_header : String :=
  "    <html>\n    <body>\n    <h1><b>Pub Scraper Report</b></h1>\n    <br/>\n    "

/-- pub_scraper.py lines 240-243: the html tail block. -/
def html_tail : String :=
  "    </body>\n    </html>\n    "

/-- pub_scraper.py lines 228-236: the three html lines appended for one
publication (linked title, italicised journal, authors list). -/
def render_pub (pub : Publication) : String :=
  "<p><a href=\"" ++ pub.url ++ "\"> <b>" ++ pub.title ++ "</b> </a></p>\n" ++
  "<p><i>" ++ pub.journal ++ "</i></p>\n" ++
  "<p>" ++ pyStrListRepr pub.authors ++ "</p>\n"

/-- pub_scraper.py lines 221-236: the part of the subsection produced for
one term: the `<h4>` heading, then either the no-results notice (empty
list) or one block per publication. -/
def render_term (pub_days_ago : Nat) (term : String) (pub_list : List Publication) :
    String :=
  "<h4>" ++ term ++ "</h4>\n" ++
  (if pub_list.length < 1 then
    "<p>No results for '" ++ term ++ "' in the last " ++
      toString pub_days_ago ++ " days</p>\n"
  else
    String.join (pub_list.map render_pub))

/-- pub_scraper.py lines 219-237: one report section: the `<h2>` category
heading followed by every term subsection, joined (`''.join`). -/
def render_section (pub_days_ago : Nat) (sec : String)
    (result_dict : List (String × List Publication)) : String :=
  "<h2 style=\"color:red;\">" ++ sec ++ "</h2>\n" ++
  String.join (result_dict.map (fun p => render_term pub_days_ago p.1 p.2))

/-- pub_scraper.py `construct_email_body` (lines 199-244): sections joined
with `<br/>`, wrapped between header and tail with `'\n'.join`. -/
def construct_email_body
    (all_results_dict : List (String × List (String × List Publication)))
    (pub_days_ago : Nat) : String :=
  String.intercalate "\n"
    [html_header,
     String.intercalate "<br/>"
       (all_results_dict.map (fun s => render_section pub_days_ago s.1 s.2)),
     html_tail]

/-! ### Definitions written from the spec's words (for refinement claims) -/

/-- Modelled from the spec: the `Keyword` template
`"<words-joined-by-plus>[Title/Abstract]"` — the keyword's
whitespace-delimited words joined with `+`, suffixed with
`[Title/Abstract]`. -/
def spec_keyword_query (text : String) : String :=
  String.intercalate "+" (pyWords text) ++ "[Title/Abstract]"

/-- Modelled from the spec: the `Author` template `"<name>[Author]"`. -/
def spec_author_query (name : String) : String :=
  name ++ "[Author]"

/-- Modelled from the spec: the `JournalTopic` template
`"<journal>[Journal] AND (<topic1> OR <topic2> ...)"` — topics OR-combined
inside parentheses, AND-combined with the journal restriction. -/
def spec_journal_topic_query (journal : String) (topics : List String) : String :=
  journal ++ "[Journal] AND (" ++ String.intercalate " OR " topics ++ ")"

/-- The sum of the publication-list lengths over every term of every
category (the spec's characterisation of the total hit count). -/
def sum_of_list_lengths
    (all_results_dict : List (String × List (String × List Publication))) : Nat :=
  (all_results_dict.map (fun s => (s.2.map (fun t => t.2.length)).sum)).sum

/-- All publications of the aggregated structure in rendering order: each
of them receives exactly one rendered entry block in the report body. -/
def rendered_pubs
    (all_results_dict : List (String × List (String × List Publication))) :
    List Publication :=
  (all_results_dict.map (fun s => (s.2.map (fun t => t.2)).flatten)).flatten

/-- Index of the last occurrence of `k` in the list (meaningful when
`k` is a member). -/
def lastOcc (l : List String) (k : String) : Nat :=
  match l with
  | [] => 0
  | _ :: ts => if k ∈ ts then lastOcc ts k + 1 else 0

/-- The outcome of one full per-identifier lookup (PubMedLookup
construction, then Publication construction) as a single Option, meaningful
for identifiers whose PubMedLookup construction succeeds. -/
def per_ID_outcome {κ : Type} (pubMedLookupF : String → String → Except String κ)
    (publicationF : κ → Option Publication) (email ID : String) :
    Option Publication :=
  match pubMedLookupF ID email with
  | Except.ok lookup => publicationF lookup
  | Except.error _ => none

/-! ### Helper lemmas -/

theorem map_fst_upd {α : Type} (d : List (String × α)) (k : String) (v : α) :
    (d.map (fun p => if p.1 = k then (k, v) else p)).map Prod.fst
      = d.map Prod.fst := by
  induction d with
  | nil => rfl
  | cons p rest ih =>
    by_cases hp : p.1 = k
    · simp [hp, ih]
    · simp [hp, ih]

theorem odKeys_insert {α : Type} (d : List (String × α)) (k : String) (v : α) :
    (odInsert d k v).map Prod.fst =
      if k ∈ d.map Prod.fst then d.map Prod.fst else d.map Prod.fst ++ [k] := by
  unfold odInsert
  by_cases h : k ∈ d.map Prod.fst
  · rw [if_pos h, if_pos h, map_fst_upd]
  · rw [if_neg h, if_neg h]
    simp

theorem odLookup_append_right {α : Type} (d l : List (String × α)) (k : String)
    (h : k ∉ d.map Prod.fst) : odLookup (d ++ l) k = odLookup l k := by
  induction d with
  | nil => rfl
  | cons p rest ih =>
    simp only [List.map_cons, List.mem_cons, not_or] at h
    have hp : ¬ p.1 = k := fun hh => h.1 hh.symm
    simp [odLookup, hp, ih h.2]

theorem odLookup_upd_self {α : Type} (d : List (String × α)) (k : String) (v : α)
    (h : k ∈ d.map Prod.fst) :
    odLookup (d.map (fun p => if p.1 = k then (k, v) else p)) k = some v := by
  induction d with
  | nil => simp at h
  | cons p rest ih =>
    by_cases hp : p.1 = k
    · simp [odLookup, hp]
    · have hrest : k ∈ rest.map Prod.fst := by
        simp only [List.map_cons, List.mem_cons] at h
        rcases h with h | h
        · exact absurd h.symm hp
        · exact h
      simp [odLookup, hp, ih hrest]

theorem odLookup_upd_ne {α : Type} (d : List (String × α)) (k k' : String) (v : α)
    (h : k' ≠ k) :
    odLookup (d.map (fun p => if p.1 = k then (k, v) else p)) k' = odLookup d k' := by
  induction d with
  | nil => rfl
  | cons p rest ih =>
    by_cases hp : p.1 = k
    · have h1 : ¬ (k = k') := fun hh => h hh.symm
      have h2 : ¬ (p.1 = k') := by rw [hp]; exact h1
      simp [odLookup, hp, h1, h2, ih]
    · simp [odLookup, hp, ih]

theorem odLookup_insert_self {α : Type} (d : List (String × α)) (k : String) (v : α) :
    odLookup (odInsert d k v) k = some v := by
  unfold odInsert
  by_cases h : k ∈ d.map Prod.fst
  · simpa [h] using odLookup_upd_self d k v h
  · rw [if_neg h, odLookup_append_right d _ k h]
    simp [odLookup]

theorem odLookup_insert_ne {α : Type} (d : List (String × α)) (k k' : String) (v : α)
    (h : k' ≠ k) : odLookup (odInsert d k v) k' = odLookup d k' := by
  unfold odInsert
  by_cases hm : k ∈ d.map Prod.fst
  · rw [if_pos hm]
    exact odLookup_upd_ne d k k' v h
  · rw [if_neg hm]
    clear hm
    induction d with
    | nil =>
      have hkk : ¬ (k = k') := fun hh => h hh.symm
      simp [odLookup, hkk]
    | cons p rest ih =>
      by_cases hp : p.1 = k'
      · simp [odLookup, hp]
      · simp [odLookup, hp, ih]

theorem search_loop_cons (search : Nat → String → List String)
    (fmt : String → String) (t : String) (ts : List String)
    (d : List (String × List String)) (n : Nat) :
    search_loop search fmt (t :: ts) (d, n) =
      search_loop search fmt ts (odInsert d t (search n (fmt t)), n + 1) := rfl

theorem search_loop_snd (search : Nat → String → List String)
    (fmt : String → String) :
    ∀ (terms : List String) (d : List (String × List String)) (n : Nat),
      (search_loop search fmt terms (d, n)).2 = n + terms.length := by
  intro terms
  induction terms with
  | nil => intro d n; simp [search_loop]
  | cons t ts ih =>
    intro d n
    rw [search_loop_cons, ih]
    simp [Nat.add_assoc, Nat.add_comm 1 ts.length]

theorem search_loop_lookup_not_mem (search : Nat → String → List String)
    (fmt : String → String) :
    ∀ (terms : List String) (d : List (String × List String)) (n : Nat)
      (k : String), k ∉ terms →
      odLookup (search_loop search fmt terms (d, n)).1 k = odLookup d k := by
  intro terms
  induction terms with
  | nil => intro d n k _; rfl
  | cons t ts ih =>
    intro d n k hk
    simp only [List.mem_cons, not_or] at hk
    rw [search_loop_cons, ih _ _ _ hk.2, odLookup_insert_ne _ _ _ _ hk.1]

theorem search_loop_lookup_mem (search : Nat → String → List String)
    (fmt : String → String) :
    ∀ (terms : List String) (d : List (String × List String)) (n : Nat)
      (k : String), k ∈ terms →
      odLookup (search_loop search fmt terms (d, n)).1 k
        = some (search (n + lastOcc terms k) (fmt k)) := by
  intro terms
  induction terms with
  | nil => intro d n k hk; simp at hk
  | cons t ts ih =>
    intro d n k hk
    rw [search_loop_cons]
    by_cases hts : k ∈ ts
    · rw [ih _ _ _ hts]
      have : lastOcc (t :: ts) k = lastOcc ts k + 1 := by simp [lastOcc, hts]
      rw [this, Nat.add_assoc, Nat.add_comm 1 (lastOcc ts k)]
    · have hkt : k = t := by
        rcases List.mem_cons.mp hk with h | h
        · exact h
        · exact absurd h hts
      subst hkt
      rw [search_loop_lookup_not_mem search fmt ts _ _ k hts,
        odLookup_insert_self]
      have : lastOcc (k :: ts) k = 0 := by simp [lastOcc, hts]
      rw [this, Nat.add_zero]

theorem search_loop_keys_nodup (search : Nat → String → List String)
    (fmt : String → String) :
    ∀ (terms : List String) (d : List (String × List String)) (n : Nat),
      (d.map Prod.fst).Nodup →
      ((search_loop search fmt terms (d, n)).1.map Prod.fst).Nodup := by
  intro terms
  induction terms with
  | nil => intro d n h; exact h
  | cons t ts ih =>
    intro d n h
    rw [search_loop_cons]
    apply ih
    rw [odKeys_insert]
    by_cases hm : t ∈ d.map Prod.fst
    · simpa [hm] using h
    · rw [if_neg hm]
      simp [List.nodup_append, h, hm]

theorem search_loop_keys_of_nodup (search : Nat → String → List String)
    (fmt : String → String) :
    ∀ (terms : List String) (d : List (String × List String)) (n : Nat),
      terms.Nodup → (∀ t ∈ terms, t ∉ d.map Prod.fst) →
      (search_loop search fmt terms (d, n)).1.map Prod.fst
        = d.map Prod.fst ++ terms := by
  intro terms
  induction terms with
  | nil => intro d n _ _; simp [search_loop]
  | cons t ts ih =>
    intro d n hnd hfresh
    have htd : t ∉ d.map Prod.fst := hfresh t (List.mem_cons_self t ts)
    have hts : t ∉ ts := (List.nodup_cons.mp hnd).1
    rw [search_loop_cons, ih _ _ (List.nodup_cons.mp hnd).2 ?fresh]
    · rw [odKeys_insert, if_neg htd]
      simp
    case fresh =>
      intro x hx
      rw [odKeys_insert, if_neg htd]
      simp only [List.mem_append, List.mem_singleton, not_or]
      exact ⟨fun hc => hfresh x (List.mem_cons_of_mem t hx) hc,
        fun hc => hts (hc ▸ hx)⟩

theorem jt_eq_search_loop (search : Nat → String → List String)
    (jtd : List (String × List String)) (n : Nat) :
    search_by_journal_and_topic search jtd n =
      search_loop search id (jtd.map (fun e => jt_formatted_term e.1 e.2))
        ([], n) := by
  unfold search_by_journal_and_topic search_loop
  rw [List.foldl_map]
  rfl

theorem fetch_fold_append (lookupF : String → String → Option Publication)
    (email : String) :
    ∀ (IDs : List String) (acc : List Publication),
      IDs.foldl
        (fun result_list ID =>
          match lookupF ID email with
          | some pub => result_list ++ [pub]
          | none => result_list) acc
        = acc ++ IDs.filterMap (fun i => lookupF i email) := by
  intro IDs
  induction IDs with
  | nil => intro acc; simp
  | cons ID rest ih =>
    intro acc
    rcases h : lookupF ID email with _ | pub
    · simp [List.foldl_cons, h, ih, List.filterMap_cons]
    · simp [List.foldl_cons, h, ih, List.filterMap_cons]

theorem fetch_eq_filterMap (lookupF : String → String → Option Publication)
    (IDs : List String) (email : String) :
    fetch_pubs_from_ID_list_noraise lookupF IDs email
      = IDs.filterMap (fun i => lookupF i email) := by
  unfold fetch_pubs_from_ID_list_noraise
  rw [fetch_fold_append]
  simp

theorem build_fold_keys (lookupF : String → String → Option Publication)
    (email : String) :
    ∀ (l : List (String × List String)) (d : List (String × List Publication)),
      (l.map Prod.fst).Nodup →
      (∀ k ∈ l.map Prod.fst, k ∉ d.map Prod.fst) →
      ((l.foldl
          (fun d e =>
            odInsert d e.1 (fetch_pubs_from_ID_list_noraise lookupF e.2 email))
          d).map Prod.fst)
        = d.map Prod.fst ++ l.map Prod.fst := by
  intro l
  induction l with
  | nil => intro d _ _; simp
  | cons e rest ih =>
    intro d hnd hfresh
    rw [List.map_cons] at hnd
    have hed : e.1 ∉ d.map Prod.fst :=
      hfresh e.1 (by simp)
    have herest : e.1 ∉ rest.map Prod.fst := (List.nodup_cons.mp hnd).1
    rw [List.foldl_cons, ih _ (List.nodup_cons.mp hnd).2 ?fresh]
    · rw [odKeys_insert, if_neg hed]
      simp
    case fresh =>
      intro x hx
      rw [odKeys_insert, if_neg hed]
      simp only [List.mem_append, List.mem_singleton, not_or]
      constructor
      · exact hfresh x (by simp [hx])
      · intro hc
        exact herest (hc ▸ hx)

theorem build_result_dict_keys (lookupF : String → String → Option Publication)
    (sd : List (String × List String)) (email : String)
    (h : (sd.map Prod.fst).Nodup) :
    (build_result_dict lookupF sd email).map Prod.fst = sd.map Prod.fst := by
  unfold build_result_dict
  rw [build_fold_keys lookupF email sd [] h (by simp)]
  simp

theorem foldl_add_len {α : Type} (f : α → Nat) :
    ∀ (l : List α) (n : Nat),
      l.foldl (fun a x => a + f x) n = n + (l.map f).sum := by
  intro l
  induction l with
  | nil => intro n; simp
  | cons x xs ih =>
    intro n
    simp [List.foldl_cons, ih, Nat.add_assoc]

theorem total_hits_eq_sum
    (r : List (String × List (String × List Publication))) :
    total_hits r = sum_of_list_lengths r := by
  unfold total_hits sum_of_list_lengths
  suffices h : ∀ (l : List (String × List (String × List Publication))) (n : Nat),
      l.foldl (fun acc s => s.2.foldl (fun a t => a + t.2.length) acc) n
        = n + (l.map (fun s => (s.2.map (fun t => t.2.length)).sum)).sum by
    simpa using h r 0
  intro l
  induction l with
  | nil => intro n; simp
  | cons s rest ih =>
    intro n
    simp [List.foldl_cons, ih, foldl_add_len (fun t => t.2.length) s.2,
      Nat.add_assoc]

theorem fetch_pubs_loop_ok {κ : Type}
    (pubMedLookupF : String → String → Except String κ)
    (publicationF : κ → Option Publication) (email : String) :
    ∀ (IDs : List String) (acc : List Publication),
      (∀ ID ∈ IDs, ∃ lk, pubMedLookupF ID email = Except.ok lk) →
      fetch_pubs_loop pubMedLookupF publicationF email IDs acc
        = Except.ok
            (acc ++ IDs.filterMap (per_ID_outcome pubMedLookupF publicationF
              email)) := by
  intro IDs
  induction IDs with
  | nil => intro acc _; simp [fetch_pubs_loop]
  | cons ID rest ih =>
    intro acc h
    obtain ⟨lk, hlk⟩ := h ID (List.mem_cons_self _ _)
    have hrest := fun i hi => h i (List.mem_cons_of_mem _ hi)
    rcases hpub : publicationF lk with _ | pub
    · simp only [fetch_pubs_loop, hlk, hpub]
      rw [ih acc hrest, List.filterMap_cons]
      simp [per_ID_outcome, hlk, hpub]
    · simp only [fetch_pubs_loop, hlk, hpub]
      rw [ih (acc ++ [pub]) hrest, List.filterMap_cons]
      simp [per_ID_outcome, hlk, hpub, List.append_assoc]

theorem fetch_pubs_from_ID_list_ok_runs {κ : Type}
    (lk : String → String → κ) (publicationF : κ → Option Publication)
    (IDs : List String) (email : String) :
    fetch_pubs_from_ID_list (fun ID e => Except.ok (lk ID e)) publicationF
        IDs email
      = Except.ok (fetch_pubs_from_ID_list_noraise
          (fun ID e => publicationF (lk ID e)) IDs email) := by
  unfold fetch_pubs_from_ID_list
  rw [fetch_pubs_loop_ok _ _ _ IDs [] (fun ID _ => ⟨lk ID email, rfl⟩),
    fetch_eq_filterMap]
  simp only [List.nil_append]
  rfl

/-! ### Claim theorems -/

/-- Counterexample to C1 as stated: the source's `try/except` guards only
the `Publication(lookup)` construction; `PubMedLookup(ID, entrez_email)`
sits outside it, so its failure raises out of the function instead of
merely skipping the identifier - here the PubMedLookup construction for
identifier `"222"` fails and the whole call yields that error rather than
a (0-to-N element) publication list. -/
theorem fetch_error_escapes_counterexample :
    fetch_pubs_from_ID_list
        (fun ID _ => if ID = "222" then Except.error "HTTPError"
          else Except.ok ID)
        (fun i => some ⟨i, "", [], ""⟩) ["111", "222"] "user@example.com"
      = Except.error "HTTPError" ∧
    ¬ ∃ l : List Publication,
      fetch_pubs_from_ID_list
          (fun ID _ => if ID = "222" then Except.error "HTTPError"
            else Except.ok ID)
          (fun i => some ⟨i, "", [], ""⟩) ["111", "222"] "user@example.com"
        = Except.ok l := by
  have h1 : fetch_pubs_from_ID_list
      (fun ID _ => if ID = "222" then Except.error "HTTPError"
        else Except.ok ID)
      (fun i => some ⟨i, "", [], ""⟩) ["111", "222"] "user@example.com"
      = Except.error "HTTPError" := rfl
  refine ⟨h1, ?_⟩
  rintro ⟨l, hl⟩
  rw [h1] at hl
  exact Except.noConfusion hl

/-- Claim C1 (amended: restricted to runs in which no identifier's
PubMedLookup construction fails, since that failure path is outside the
source's `try` and propagates out of the function): the Publication
Fetcher returns exactly the publications of the per-identifier
Publication constructions that succeed, in the relative order of their
identifiers in the input list; a failing Publication construction
contributes no element and raises no error, so a batch of N identifiers
yields between 0 and N publications. -/
theorem fetch_returns_successful_constructions_in_order {κ : Type}
    (pubMedLookupF : String → String → Except String κ)
    (publicationF : κ → Option Publication) (email : String)
    (IDs : List String)
    (h : ∀ ID ∈ IDs, ∃ lk, pubMedLookupF ID email = Except.ok lk) :
    fetch_pubs_from_ID_list pubMedLookupF publicationF IDs email
      = Except.ok
          (IDs.filterMap (per_ID_outcome pubMedLookupF publicationF email)) ∧
    ∀ l : List Publication,
      fetch_pubs_from_ID_list pubMedLookupF publicationF IDs email
          = Except.ok l →
      l.length ≤ IDs.length := by
  have h1 : fetch_pubs_from_ID_list pubMedLookupF publicationF IDs email
      = Except.ok
          (IDs.filterMap (per_ID_outcome pubMedLookupF publicationF email)) := by
    unfold fetch_pubs_from_ID_list
    rw [fetch_pubs_loop_ok pubMedLookupF publicationF email IDs [] h]
    simp
  refine ⟨h1, ?_⟩
  intro l hl
  rw [h1] at hl
  have h2 := Except.ok.inj hl
  subst h2
  exact List.length_filterMap_le _ _

/-- Witness for the amended C1: the spec's scenario - three identifiers
whose middle Publication construction fails - yields exactly the first
and third publications, in order. -/
theorem fetch_returns_successful_constructions_in_order_witness :
    fetch_pubs_from_ID_list
        (fun i _ => (Except.ok i : Except String String))
        (fun i => if i = "222" then none else some ⟨i, "", [], ""⟩)
        ["111", "222", "333"] "e"
      = Except.ok [⟨"111", "", [], ""⟩, ⟨"333", "", [], ""⟩] := by
  have h := (fetch_returns_successful_constructions_in_order
      (fun i _ => (Except.ok i : Except String String))
      (fun i => if i = "222" then none else some ⟨i, "", [], ""⟩)
      "e" ["111", "222", "333"] (fun ID _ => ⟨ID, rfl⟩)).1
  rw [h]
  rfl

/-- Claim C3: each SearchTerm variant maps to its fixed template - the
keyword's whitespace-delimited words joined with `+` and suffixed with
`[Title/Abstract]`, the author name suffixed with `[Author]`, and the
journal+topic pair as `<journal>[Journal] AND (<topic1> OR <topic2> ...)`
with topics joined by ` OR ` inside parentheses. -/
theorem term_expander_fixed_templates (text nm journal : String)
    (topics : List String) :
    keyword_formatted_term text = spec_keyword_query text ∧
    author_formatted_term nm = spec_author_query nm ∧
    jt_formatted_term journal topics = spec_journal_topic_query journal topics :=
  ⟨rfl, rfl, rfl⟩

/-- Claim C7: a term whose publication list is empty renders as the term
heading followed by exactly the fixed notice
`No results for '<term>' in the last <N> days`. -/
theorem empty_term_renders_fixed_notice (d : Nat) (term : String) :
    render_term d term [] =
      "<h4>" ++ term ++ "</h4>\n" ++
        ("<p>No results for '" ++ term ++ "' in the last " ++ toString d ++
          " days</p>\n") := rfl

/-- Claim C5: the total hit count computed before rendering equals the sum
of the publication-list lengths over every term of every category, and
appending one successfully fetched publication to any term's list
increases the count by one. -/
theorem total_hits_is_sum_and_monotone
    (r : List (String × List (String × List Publication))) :
    total_hits r = sum_of_list_lengths r ∧
    ∀ (pre post : List (String × List (String × List Publication)))
      (c : String) (td1 td2 : List (String × List Publication))
      (t : String) (pl : List Publication) (p : Publication),
      r = pre ++ (c, td1 ++ (t, pl) :: td2) :: post →
      total_hits (pre ++ (c, td1 ++ (t, pl ++ [p]) :: td2) :: post)
        = total_hits r + 1 := by
  refine ⟨total_hits_eq_sum r, ?_⟩
  intro pre post c td1 td2 t pl p hr
  subst hr
  rw [total_hits_eq_sum, total_hits_eq_sum]
  unfold sum_of_list_lengths
  simp [List.map_append, List.sum_append, List.length_append]
  omega

/-- A sample publication (the spec's §8 scenario record). -/
def pub0 : Publication := ⟨"T1", "J1", ["Smith A"], "dx.doi.org/10.1/x"⟩

/-- Witness for C5 at a concrete structure. -/
theorem total_hits_is_sum_and_monotone_witness :
    total_hits [("Keyword Searches", [("CRISPR", [pub0])])]
      = total_hits [("Keyword Searches", [("CRISPR", ([] : List Publication))])]
          + 1 :=
  (total_hits_is_sum_and_monotone
    [("Keyword Searches", [("CRISPR", [])])]).2
    [] [] "Keyword Searches" [] [] "CRISPR" [] pub0 rfl

/-- Claim C10: the hit total placed in the subject line equals the number
of publication entry blocks rendered in the body - both are computed from
the same aggregated structure: the total is the length of the list of
publications that receive a rendered block, and every publication of a
nonempty term list receives exactly one `render_pub` block. -/
theorem subject_count_equals_rendered_entry_blocks
    (r : List (String × List (String × List Publication))) (date_str : String) :
    total_hits r = (rendered_pubs r).length ∧
    subject_line date_str (total_hits r)
      = message_subject date_str ++ " (" ++ toString (rendered_pubs r).length
          ++ " hits)" ∧
    ∀ (d : Nat) (t : String) (pl : List Publication), pl ≠ [] →
      render_term d t pl
        = "<h4>" ++ t ++ "</h4>\n" ++ String.join (pl.map render_pub) := by
  have hlen : total_hits r = (rendered_pubs r).length := by
    rw [total_hits_eq_sum]
    unfold sum_of_list_lengths rendered_pubs
    rw [List.length_flatten, List.map_map]
    congr 1
    apply List.map_congr_left
    intro s _
    show (List.map (fun t => t.2.length) s.2).sum
        = ((List.map (fun t => t.2) s.2).flatten).length
    rw [List.length_flatten, List.map_map]
    rfl
  refine ⟨hlen, ?_, ?_⟩
  · unfold subject_line
    rw [hlen]
  · intro d t pl hpl
    cases pl with
    | nil => exact absurd rfl hpl
    | cons q qs => simp [render_term]

/-- Witness for C10 at a concrete structure. -/
theorem subject_count_equals_rendered_entry_blocks_witness :
    total_hits [("Keyword Searches", [("CRISPR", [pub0])])]
      = (rendered_pubs [("Keyword Searches", [("CRISPR", [pub0])])]).length ∧
    render_term 7 "CRISPR" [pub0]
      = "<h4>" ++ "CRISPR" ++ "</h4>\n" ++ String.join ([pub0].map render_pub) :=
  ⟨(subject_count_equals_rendered_entry_blocks
      [("Keyword Searches", [("CRISPR", [pub0])])] "2026/10/12").1,
   (subject_count_equals_rendered_entry_blocks
      [("Keyword Searches", [("CRISPR", [pub0])])] "2026/10/12").2.2
      7 "CRISPR" [pub0] (by decide)⟩

/-- Claim C6: for every input the rendered report consists of exactly the
three category sections, in the fixed order Keyword Searches, Author
Searches, Journal and Topic Searches (joined with the fixed separator and
wrapped in the constant header/tail); each section starts with its
category heading. -/
theorem report_sections_fixed_order (search : Nat → String → List String)
    (lookupF : String → String → Option Publication) (cfg : Config) :
    construct_email_body (main_results search lookupF cfg) cfg.pub_days_ago
      = html_header ++ "\n" ++
          (render_section cfg.pub_days_ago "Keyword Searches"
              (main_keyword_publications search lookupF cfg) ++
            "<br/>" ++
            render_section cfg.pub_days_ago "Author Searches"
              (main_author_publications search lookupF cfg) ++
            "<br/>" ++
            render_section cfg.pub_days_ago "Journal and Topic Searches"
              (main_journal_topic_publications search lookupF cfg)) ++
          "\n" ++ html_tail ∧
    ∀ (d : Nat) (sec : String) (rd : List (String × List Publication)),
      render_section d sec rd
        = "<h2 style=\"color:red;\">" ++ sec ++ "</h2>\n" ++
            String.join (rd.map (fun p => render_term d p.1 p.2)) :=
  ⟨rfl, fun _ _ _ => rfl⟩

/-- Claim C4: for every journal+topic entry, the formatted query string is
used verbatim both as the query passed to the search call (the stored
identifier list is the value the oracle returned for exactly that string)
and as the term key of the entry in the result mapping; the example pair
Nature / [aging, longevity] formats to
`Nature[Journal] AND (aging OR longevity)`; the key is in turn the
subsection heading rendered for the entry. -/
theorem journal_topic_query_is_term_key (search : Nat → String → List String)
    (n : Nat) (jtd : List (String × List String)) (q : String)
    (h : q ∈ jtd.map (fun e => jt_formatted_term e.1 e.2)) :
    odLookup (search_by_journal_and_topic search jtd n).1 q
        = some (search
            (n + lastOcc (jtd.map (fun e => jt_formatted_term e.1 e.2)) q) q) ∧
    jt_formatted_term "Nature" ["aging", "longevity"]
        = "Nature[Journal] AND (aging OR longevity)" ∧
    ∀ (d : Nat) (pl : List Publication),
      render_term d q pl = "<h4>" ++ q ++ "</h4>\n" ++
        (if pl.length < 1 then
          "<p>No results for '" ++ q ++ "' in the last " ++ toString d ++
            " days</p>\n"
        else String.join (pl.map render_pub)) := by
  refine ⟨?_, by decide, fun d pl => rfl⟩
  rw [jt_eq_search_loop]
  simpa using search_loop_lookup_mem search id
    (jtd.map (fun e => jt_formatted_term e.1 e.2)) [] n q h

/-- Witness for C4 at the spec's concrete journal+topic entry. -/
theorem journal_topic_query_is_term_key_witness :
    ("Nature[Journal] AND (aging OR longevity)"
        ∈ [("Nature", ["aging", "longevity"])].map
            (fun e => jt_formatted_term e.1 e.2)) ∧
    odLookup (search_by_journal_and_topic (fun i _ => [toString i])
          [("Nature", ["aging", "longevity"])] 0).1
        "Nature[Journal] AND (aging OR longevity)" = some ["0"] := by
  refine ⟨by decide, ?_⟩
  have h := (journal_topic_query_is_term_key (fun i _ => [toString i]) 0
    [("Nature", ["aging", "longevity"])]
    "Nature[Journal] AND (aging OR longevity)" (by decide)).1
  rw [h]
  decide

/-- Claim C9: for a term list containing a term more than once, one search
is issued per occurrence (the call counter advances once per list element),
yet the output mapping has no duplicate keys, and the identifier list
stored under the repeated key is the one returned by the search of its
last occurrence - for `search_by_keywords` and `search_by_authors` alike. -/
theorem duplicate_terms_one_search_each_last_write_wins
    (search : Nat → String → List String) (terms : List String) (k : String)
    (h : k ∈ terms) :
    (search_by_keywords search terms 0).2 = terms.length ∧
    ((search_by_keywords search terms 0).1.map Prod.fst).Nodup ∧
    odLookup (search_by_keywords search terms 0).1 k
        = some (search (lastOcc terms k) (keyword_formatted_term k)) ∧
    (search_by_authors search terms 0).2 = terms.length ∧
    ((search_by_authors search terms 0).1.map Prod.fst).Nodup ∧
    odLookup (search_by_authors search terms 0).1 k
        = some (search (lastOcc terms k) (author_formatted_term k)) := by
  unfold search_by_keywords search_by_authors
  refine ⟨?_, ?_, ?_, ?_, ?_, ?_⟩
  · simpa using search_loop_snd search keyword_formatted_term terms [] 0
  · exact search_loop_keys_nodup search keyword_formatted_term terms [] 0
      (by simp)
  · simpa using search_loop_lookup_mem search keyword_formatted_term terms
      [] 0 k h
  · simpa using search_loop_snd search author_formatted_term terms [] 0
  · exact search_loop_keys_nodup search author_formatted_term terms [] 0
      (by simp)
  · simpa using search_loop_lookup_mem search author_formatted_term terms
      [] 0 k h

/-- Witness for C9: with terms `["x", "y", "x"]` and an oracle that
reports its call index, the entry for `"x"` holds the result of call 2,
the last occurrence's search. -/
theorem duplicate_terms_one_search_each_last_write_wins_witness :
    ("x" ∈ ["x", "y", "x"]) ∧
    (search_by_keywords (fun i q => [toString i, q]) ["x", "y", "x"] 0).2 = 3 ∧
    odLookup (search_by_keywords (fun i q => [toString i, q])
        ["x", "y", "x"] 0).1 "x"
      = some ["2", keyword_formatted_term "x"] := by
  have h := duplicate_terms_one_search_each_last_write_wins
    (fun i q => [toString i, q]) ["x", "y", "x"] "x" (by decide)
  refine ⟨by decide, by rw [h.1]; decide, ?_⟩
  rw [h.2.2.1, show lastOcc ["x", "y", "x"] "x" = 2 from by decide]
  rfl

/-- Counterexample to C8 as stated: with the duplicated keyword list
`["a", "a", "b"]` the final term mapping has keys `["a", "b"]`, so its
second key is not the second configured term. -/
theorem term_order_counterexample :
    ((build_result_dict (fun _ _ => none)
        (search_by_keywords (fun _ _ => []) ["a", "a", "b"] 0).1
        database).map Prod.fst)[1]?
      ≠ (["a", "a", "b"] : List String)[1]? := by decide

/-- Claim C8 (amended: for a configured term list without duplicate
terms): term ordering is preserved end-to-end - the keys of the category's
final term mapping after search and fetch are exactly the configured
terms, in order (so the Nth key is the Nth configured term), for the
keyword and the author category alike. -/
theorem term_order_preserved_without_duplicates
    (search : Nat → String → List String)
    (lookupF : String → String → Option Publication) (terms : List String)
    (h : terms.Nodup) :
    (build_result_dict lookupF (search_by_keywords search terms 0).1
        database).map Prod.fst = terms ∧
    (build_result_dict lookupF (search_by_authors search terms 0).1
        database).map Prod.fst = terms ∧
    ∀ i : Nat,
      ((build_result_dict lookupF (search_by_keywords search terms 0).1
          database).map Prod.fst)[i]? = terms[i]? := by
  have hkw : (search_by_keywords search terms 0).1.map Prod.fst = terms := by
    unfold search_by_keywords
    simpa using search_loop_keys_of_nodup search keyword_formatted_term terms
      [] 0 h (by simp)
  have hau : (search_by_authors search terms 0).1.map Prod.fst = terms := by
    unfold search_by_authors
    simpa using search_loop_keys_of_nodup search author_formatted_term terms
      [] 0 h (by simp)
  have h1 : (build_result_dict lookupF (search_by_keywords search terms 0).1
      database).map Prod.fst = terms := by
    rw [build_result_dict_keys _ _ _ (by rw [hkw]; exact h), hkw]
  refine ⟨h1, ?_, fun i => by rw [h1]⟩
  rw [build_result_dict_keys _ _ _ (by rw [hau]; exact h), hau]

/-- Witness for the amended C8 at a concrete duplicate-free term list. -/
theorem term_order_preserved_without_duplicates_witness :
    (["a", "b"] : List String).Nodup ∧
    (build_result_dict (fun _ _ => none)
        (search_by_keywords (fun _ _ => []) ["a", "b"] 0).1
        database).map Prod.fst = ["a", "b"] :=
  ⟨by decide, (term_order_preserved_without_duplicates (fun _ _ => [])
      (fun _ _ => none) ["a", "b"] (by decide)).1⟩

/-- The configuration used to exhibit the entrez-email slip of `main`. -/
def cfgC2 : Config := ⟨"user@example.com", ["crispr"], [], [], 7⟩

/-- Claim C2 is violated by the code (pub_scraper.py line 87 passes the
local variable `database`, i.e. 'pubmed', where `build_result_dict`
documents and names its parameter `entrez_email`): with a lookup oracle
that records the credentials it receives in the publication title, the
fetched record shows 'pubmed' although the configured entrez email is
'user@example.com'. -/
theorem lookup_receives_database_not_email :
    odLookup (main_keyword_publications (fun _ _ => ["111"])
        (fun _ creds => some ⟨creds, "", [], ""⟩) cfgC2) "crispr"
      = some [⟨database, "", [], ""⟩] ∧
    database = "pubmed" ∧
    cfgC2.entrez_email = "user@example.com" ∧
    database ≠ cfgC2.entrez_email :=
  ⟨by decide, rfl, rfl, by decide⟩
